import Mathlib

/-!
Shallow embedding of the order-lifecycle core of the depin-storage-aggregator
repository: the allocation orchestrator (`BlockchainService.processOrder`,
`retryTransaction`, `pollTransactionConfirmation`), the payment service
(`createCheckoutSession`, `handleWebhook` and its event handlers), the webhook
HTTP route, `OrderService.cancelOrder`, and the Filecoin adapter's
`checkTransactionStatus`.  Rows are modelled as records, the database as lists
of rows, timestamps as natural numbers, and every external effect (payment
processor, RPC node, id generation) as an explicit parameter.  Prisma's
`withTransaction` is atomic: handlers either apply all of their writes or
return an error leaving the state unchanged, and an update aimed at a missing
row is an error.
-/

namespace Agg

/-- Enumeration `OrderStatus` from the Prisma schema. -/
inductive OrderStatus where
  | PENDING_PAYMENT | PAYMENT_PROCESSING | PAYMENT_COMPLETED | PAYMENT_FAILED
  | BLOCKCHAIN_PENDING | BLOCKCHAIN_PROCESSING | BLOCKCHAIN_CONFIRMED | BLOCKCHAIN_FAILED
  | COMPLETED | CANCELLED | REFUNDED
  deriving DecidableEq, Repr

/-- Rendering of an `OrderStatus` used in template-string error messages. -/
def OrderStatus.name : OrderStatus → String
  | .PENDING_PAYMENT => "PENDING_PAYMENT"
  | .PAYMENT_PROCESSING => "PAYMENT_PROCESSING"
  | .PAYMENT_COMPLETED => "PAYMENT_COMPLETED"
  | .PAYMENT_FAILED => "PAYMENT_FAILED"
  | .BLOCKCHAIN_PENDING => "BLOCKCHAIN_PENDING"
  | .BLOCKCHAIN_PROCESSING => "BLOCKCHAIN_PROCESSING"
  | .BLOCKCHAIN_CONFIRMED => "BLOCKCHAIN_CONFIRMED"
  | .BLOCKCHAIN_FAILED => "BLOCKCHAIN_FAILED"
  | .COMPLETED => "COMPLETED"
  | .CANCELLED => "CANCELLED"
  | .REFUNDED => "REFUNDED"

/-- Enumeration `PaymentStatus` from the Prisma schema. -/
inductive PaymentStatus where
  | PENDING | PROCESSING | SUCCEEDED | FAILED | CANCELLED | REFUNDED
  deriving DecidableEq, Repr

/-- Enumeration `TransactionStatus` from the Prisma schema. -/
inductive TransactionStatus where
  | PENDING | SUBMITTED | CONFIRMING | CONFIRMED | FAILED | RETRYING
  deriving DecidableEq, Repr

/-- Enumeration `PlanStatus` from the Prisma schema. -/
inductive PlanStatus where
  | AVAILABLE | UNAVAILABLE | DEPRECATED
  deriving DecidableEq, Repr

/-- The `users` row (the fields the core reads). -/
structure User where
  id : Nat
  email : String
  stripeCustomerId : Option String := none
  walletAddress : Option String := none
  deriving DecidableEq, Repr

/-- The `storage_plans` row (the fields the core reads). -/
structure StoragePlan where
  id : Nat
  providerId : Nat
  name : String
  storageSizeGb : Nat
  durationDays : Nat
  priceUsdCents : Nat
  status : PlanStatus
  isActive : Bool
  deriving DecidableEq, Repr

/-- The `orders` row (the fields the core reads or writes). -/
structure Order where
  id : Nat
  orderNumber : String
  userId : Nat
  providerId : Nat
  planId : Nat
  storageSizeGb : Nat
  durationDays : Nat
  priceUsdCents : Nat
  status : OrderStatus
  statusMessage : Option String := none
  idempotencyKey : Option String := none
  storageId : Option String := none
  storageEndpoint : Option String := none
  paidAt : Option Nat := none
  allocatedAt : Option Nat := none
  expiresAt : Option Nat := none
  deriving DecidableEq, Repr

/-- The `payments` row (the fields the core reads or writes). -/
structure Payment where
  id : Nat
  orderId : Nat
  userId : Nat
  amountCents : Nat
  status : PaymentStatus
  statusMessage : Option String := none
  stripeSessionId : Option String := none
  stripePaymentIntentId : Option String := none
  idempotencyKey : String
  processedAt : Option Nat := none
  deriving DecidableEq, Repr

/-- The `blockchain_transactions` row (the fields the core reads or writes). -/
structure BlockchainTransaction where
  id : Nat
  orderId : Nat
  providerId : Nat
  status : TransactionStatus
  statusMessage : Option String := none
  txHash : Option String := none
  fromAddress : Option String := none
  toAddress : Option String := none
  gasLimit : Option String := none
  gasPrice : Option String := none
  value : Option String := none
  dataHex : Option String := none
  nonce : Option Nat := none
  confirmations : Int := 0
  blockNumber : Option Int := none
  blockHash : Option String := none
  gasUsed : Option String := none
  retryCount : Nat := 0
  maxRetries : Nat := 3
  lastRetryAt : Option Nat := none
  submittedAt : Option Nat := none
  confirmedAt : Option Nat := none
  deriving DecidableEq, Repr

/-- The persistent store: one list per entity collection, in insertion order
(`create` appends, `findUnique` is the first match on the key). -/
structure DB where
  users : List User := []
  plans : List StoragePlan := []
  orders : List Order := []
  payments : List Payment := []
  transactions : List BlockchainTransaction := []
  deriving DecidableEq, Repr

/-- Lookup `prisma.order.findUnique({where: {id}})`. -/
def findOrder (db : DB) (oid : Nat) : Option Order :=
  db.orders.find? (fun o => o.id == oid)

/-- Lookup `prisma.payment.findUnique({where: {id}})`. -/
def findPayment (db : DB) (pid : Nat) : Option Payment :=
  db.payments.find? (fun p => p.id == pid)

/-- Lookup `prisma.blockchainTransaction.findUnique({where: {id}})`. -/
def findTx (db : DB) (tid : Nat) : Option BlockchainTransaction :=
  db.transactions.find? (fun t => t.id == tid)

/-- The `transactions` relation included on an order: every transaction row
whose `orderId` matches, in insertion order. -/
def orderTransactions (db : DB) (oid : Nat) : List BlockchainTransaction :=
  db.transactions.filter (fun t => t.orderId == oid)

/-- Apply `prisma.order.update({where: {id}})` to every matching row. -/
def updateOrder (db : DB) (oid : Nat) (f : Order → Order) : DB :=
  { db with orders := db.orders.map (fun o => if o.id == oid then f o else o) }

/-- Apply `prisma.payment.update({where: {id}})` to every matching row. -/
def updatePayment (db : DB) (pid : Nat) (f : Payment → Payment) : DB :=
  { db with payments := db.payments.map (fun p => if p.id == pid then f p else p) }

/-- Apply `prisma.blockchainTransaction.update({where: {id}})`. -/
def updateTx (db : DB) (tid : Nat) (f : BlockchainTransaction → BlockchainTransaction) : DB :=
  { db with transactions := db.transactions.map (fun t => if t.id == tid then f t else t) }

/-- Apply `prisma.user.update({where: {id}})`. -/
def updateUser (db : DB) (uid : Nat) (f : User → User) : DB :=
  { db with users := db.users.map (fun u => if u.id == uid then f u else u) }

/-- Helper `addDays` from `common/utils/helpers`: timestamps are milliseconds,
one day is 86400000 of them. -/
def addDays (t : Nat) (days : Nat) : Nat :=
  t + days * 86400000

/-- The discriminated result type `ServiceResult` of `common/interfaces`:
`successResult(data)` or `errorResult(code, message)`. -/
inductive ServiceResult (α : Type) where
  | success (data : α)
  | error (code : String) (message : String)
  deriving DecidableEq, Repr

/-- The `ITransactionResult` an adapter's `executeStorageTransaction` returns. -/
structure TxResult where
  success : Bool
  txHash : Option String := none
  status : TransactionStatus
  fromAddress : Option String := none
  toAddress : Option String := none
  gasLimit : Option String := none
  gasPrice : Option String := none
  value : Option String := none
  dataHex : Option String := none
  nonce : Option Nat := none
  storageId : Option String := none
  storageEndpoint : Option String := none
  error : Option String := none
  deriving DecidableEq, Repr

/-- Outcome of the single `adapter.executeStorageTransaction` call made by
`processOrder`: either a returned `ITransactionResult` or a thrown exception
(with its message). -/
inductive AdapterOutcome where
  | result (r : TxResult)
  | throws (msg : String)
  deriving DecidableEq, Repr

/-- Environment of one `processOrder` (or `retryTransaction`) invocation: the
clock, the id the store assigns to a created transaction row, whether
`registry.getAdapter` throws (`some msg`) or resolves (`none`), and the outcome
of the adapter call. -/
structure ProcessEnv where
  now : Nat
  newTxId : Nat
  adapterLookupError : Option String := none
  adapterOutcome : AdapterOutcome
  deriving DecidableEq, Repr

/-- JavaScript truthiness of the `result.txHash` guard: `undefined` and the
empty string are falsy. -/
def hashTruthy : Option String → Bool
  | none => false
  | some h => !(h == "")

/-- Embedding of `BlockchainService.processOrder`.  Returns the updated store
and the `ServiceResult` carrying the transaction id.  The detached call to
`pollTransactionConfirmation` is not part of the state change. -/
def processOrder (env : ProcessEnv) (db : DB) (orderId : Nat) :
    DB × ServiceResult Nat :=
  match findOrder db orderId with
  | none => (db, .error "ORDER_NOT_FOUND" "Order not found")
  | some order =>
    if order.status ≠ OrderStatus.PAYMENT_COMPLETED then
      (db, .error "INVALID_ORDER_STATUS"
        ("Order status is " ++ order.status.name ++ ", expected PAYMENT_COMPLETED"))
    else
      match (orderTransactions db orderId).find?
          (fun t => t.status != TransactionStatus.FAILED) with
      | some existingTx => (db, .success existingTx.id)
      | none =>
        let db1 := updateOrder db orderId
          (fun o => { o with status := OrderStatus.BLOCKCHAIN_PENDING })
        match env.adapterLookupError with
        | some msg =>
          -- `getAdapter` threw; the catch block marks the order failed.
          (updateOrder db1 orderId (fun o =>
              { o with status := OrderStatus.BLOCKCHAIN_FAILED,
                       statusMessage := some msg }),
           .error "PROCESSING_FAILED" msg)
        | none =>
          let newTx : BlockchainTransaction :=
            { id := env.newTxId, orderId := orderId, providerId := order.providerId,
              status := TransactionStatus.PENDING }
          let db2 := { db1 with transactions := db1.transactions ++ [newTx] }
          let db3 := updateOrder db2 orderId
            (fun o => { o with status := OrderStatus.BLOCKCHAIN_PROCESSING })
          match env.adapterOutcome with
          | .throws msg =>
            (updateOrder db3 orderId (fun o =>
                { o with status := OrderStatus.BLOCKCHAIN_FAILED,
                         statusMessage := some msg }),
             .error "PROCESSING_FAILED" msg)
          | .result r =>
            if r.success && hashTruthy r.txHash then
              let db4 := updateTx db3 env.newTxId (fun t =>
                { t with txHash := r.txHash, status := r.status,
                         fromAddress := r.fromAddress, toAddress := r.toAddress,
                         gasLimit := r.gasLimit, gasPrice := r.gasPrice,
                         value := r.value, dataHex := r.dataHex, nonce := r.nonce,
                         submittedAt := some env.now })
              let db5 := updateOrder db4 orderId (fun o =>
                { o with status := OrderStatus.BLOCKCHAIN_PROCESSING,
                         storageId := r.storageId,
                         storageEndpoint := r.storageEndpoint })
              (db5, .success env.newTxId)
            else
              let db4 := updateTx db3 env.newTxId (fun t =>
                { t with status := TransactionStatus.FAILED,
                         statusMessage := some (r.error.getD "Transaction failed") })
              let db5 := updateOrder db4 orderId (fun o =>
                { o with status := OrderStatus.BLOCKCHAIN_FAILED,
                         statusMessage := some (r.error.getD "Blockchain transaction failed") })
              (db5, .error "TRANSACTION_FAILED" (r.error.getD "Transaction failed"))

/-- Embedding of `BlockchainService.retryTransaction`. -/
def retryTransaction (env : ProcessEnv) (db : DB) (txId : Nat) :
    DB × ServiceResult Nat :=
  match findTx db txId with
  | none => (db, .error "TX_NOT_FOUND" "Transaction not found")
  | some tx =>
    if tx.status ≠ TransactionStatus.FAILED then
      (db, .error "INVALID_STATUS" "Can only retry failed transactions")
    else if tx.maxRetries ≤ tx.retryCount then
      (db, .error "MAX_RETRIES" "Maximum retry attempts reached")
    else
      let db1 := updateTx db txId (fun t =>
        { t with retryCount := t.retryCount + 1,
                 lastRetryAt := some env.now,
                 status := TransactionStatus.RETRYING })
      processOrder env db1 tx.orderId

/-- The `ITransactionStatusResult` an adapter's `checkTransactionStatus`
returns. -/
structure StatusResult where
  status : TransactionStatus
  confirmations : Int := 0
  blockNumber : Option Int := none
  blockHash : Option String := none
  gasUsed : Option String := none
  error : Option String := none
  deriving DecidableEq, Repr

/-- One iteration of `pollTransactionConfirmation` after the sleep, given the
adapter's status probe.  Returns the updated store and whether the loop
returns (stops polling).  A thrown store or adapter error is caught and the
loop continues; that transient path is outside this embedding. -/
def pollIteration (statusOf : String → StatusResult) (now : Nat)
    (db : DB) (txId : Nat) : DB × Bool :=
  match findTx db txId with
  | none => (db, true)
  | some tx =>
    match tx.txHash with
    | none => (db, true)
    | some h =>
      if tx.status == TransactionStatus.CONFIRMED
          || tx.status == TransactionStatus.FAILED then
        (db, true)
      else
        let st := statusOf h
        -- Prisma skips fields whose value is `undefined`, so optional fields
        -- of the probe fall back to the stored value.
        let db1 := updateTx db txId (fun t =>
          { t with status := st.status, confirmations := st.confirmations,
                   blockNumber := st.blockNumber <|> t.blockNumber,
                   blockHash := st.blockHash <|> t.blockHash,
                   gasUsed := st.gasUsed <|> t.gasUsed,
                   confirmedAt :=
                     if st.status == TransactionStatus.CONFIRMED then some now
                     else t.confirmedAt,
                   statusMessage := st.error <|> t.statusMessage })
        if st.status == TransactionStatus.CONFIRMED then
          (updateOrder db1 tx.orderId (fun o =>
              { o with status := OrderStatus.COMPLETED,
                       allocatedAt := some now,
                       expiresAt := some (addDays now o.durationDays) }),
           true)
        else if st.status == TransactionStatus.FAILED then
          (updateOrder db1 tx.orderId (fun o =>
              { o with status := OrderStatus.BLOCKCHAIN_FAILED,
                       statusMessage := some (st.error.getD "Transaction failed") }),
           true)
        else
          (db1, false)

/-- A fetched EVM transaction receipt (`ethers` shape used by the Filecoin
adapter): `status` is 0 for a reverted and 1 for a successful transaction. -/
structure Receipt where
  rstatus : Nat
  blockNumber : Int
  blockHash : String
  gasUsed : String
  deriving DecidableEq, Repr

/-- Embedding of `FilecoinAdapter.checkTransactionStatus`.  `initialized` and
`providerSet` mirror `ensureInitialized` (which throws, hence `Except`) and
the `this.provider` null check; `fetchReceipt` is the retried
`getTransactionReceipt` and `currentBlock` the `getBlockNumber` call, each
either a value or a thrown error (caught, yielding PENDING). -/
def filecoinCheckTransactionStatus (initialized providerSet : Bool)
    (fetchReceipt : Except String (Option Receipt))
    (currentBlock : Except String Int) : Except String StatusResult :=
  if !initialized then
    .error "Provider adapter not initialized"
  else if !providerSet then
    .ok { status := .FAILED, confirmations := 0, error := some "Provider not available" }
  else
    match fetchReceipt with
    | .error e => .ok { status := .PENDING, confirmations := 0, error := some e }
    | .ok none => .ok { status := .PENDING, confirmations := 0 }
    | .ok (some r) =>
      match currentBlock with
      | .error e => .ok { status := .PENDING, confirmations := 0, error := some e }
      | .ok cb =>
        let confirmations := cb - r.blockNumber
        if r.rstatus == 0 then
          .ok { status := .FAILED, confirmations := confirmations,
                blockNumber := some r.blockNumber, blockHash := some r.blockHash,
                gasUsed := some r.gasUsed, error := some "Transaction reverted" }
        else
          .ok { status :=
                  if 5 ≤ confirmations then TransactionStatus.CONFIRMED
                  else TransactionStatus.CONFIRMING,
                confirmations := confirmations,
                blockNumber := some r.blockNumber, blockHash := some r.blockHash,
                gasUsed := some r.gasUsed }

/-- Metadata of a hosted-checkout session as carried by a webhook event:
`session.metadata.orderId` / `paymentId` and `session.payment_intent`. -/
structure SessionMeta where
  sessionId : String
  orderId : Option Nat := none
  paymentId : Option Nat := none
  paymentIntent : Option String := none
  deriving DecidableEq, Repr

/-- Embedding of `PaymentService.handleCheckoutCompleted`.  The result is the
updated store and whether the allocation orchestrator was scheduled
(`triggerBlockchainTransaction` fired); a thrown store error (the atomic
`withTransaction` aimed at a missing row) is `Except.error`. -/
def handleCheckoutCompleted (now : Nat) (s : SessionMeta) (db : DB) :
    Except String (DB × Bool) :=
  match s.orderId with
  | none => .ok (db, false)
  | some oid =>
  match s.paymentId with
  | none => .ok (db, false)
  | some pid =>
    let alreadySucceeded :=
      match findPayment db pid with
      | some p => p.status == PaymentStatus.SUCCEEDED
      | none => false
    if alreadySucceeded then
      .ok (db, false)
    else
      if (findPayment db pid).isSome && (findOrder db oid).isSome then
        let db1 := updatePayment db pid (fun p =>
          { p with status := PaymentStatus.SUCCEEDED,
                   stripePaymentIntentId := s.paymentIntent,
                   processedAt := some now })
        let db2 := updateOrder db1 oid (fun o =>
          { o with status := OrderStatus.PAYMENT_COMPLETED,
                   paidAt := some now })
        .ok (db2, true)
      else
        .error "Record to update not found"

/-- Embedding of `PaymentService.handleCheckoutExpired`. -/
def handleCheckoutExpired (s : SessionMeta) (db : DB) : Except String DB :=
  match s.orderId with
  | none => .ok db
  | some oid =>
  match s.paymentId with
  | none => .ok db
  | some pid =>
    if (findPayment db pid).isSome && (findOrder db oid).isSome then
      let db1 := updatePayment db pid (fun p =>
        { p with status := PaymentStatus.CANCELLED,
                 statusMessage := some "Checkout session expired" })
      let db2 := updateOrder db1 oid (fun o =>
        { o with status := OrderStatus.CANCELLED,
                 statusMessage := some "Payment session expired" })
      .ok db2
    else
      .error "Record to update not found"

/-- Embedding of `PaymentService.handlePaymentSucceeded`. -/
def handlePaymentSucceeded (now : Nat) (intentId : String) (db : DB) :
    Except String DB :=
  match db.payments.find? (fun p => p.stripePaymentIntentId == some intentId) with
  | some p =>
    if p.status != PaymentStatus.SUCCEEDED then
      .ok (updatePayment db p.id (fun q =>
        { q with status := PaymentStatus.SUCCEEDED, processedAt := some now }))
    else
      .ok db
  | none => .ok db

/-- Embedding of `PaymentService.handlePaymentFailed`. -/
def handlePaymentFailed (intentId : String) (errMsg : Option String) (db : DB) :
    Except String DB :=
  match db.payments.find? (fun p => p.stripePaymentIntentId == some intentId) with
  | some p =>
    if (findOrder db p.orderId).isSome then
      let db1 := updatePayment db p.id (fun q =>
        { q with status := PaymentStatus.FAILED,
                 statusMessage := some (errMsg.getD "Payment failed") })
      .ok (updateOrder db1 p.orderId (fun o =>
        { o with status := OrderStatus.PAYMENT_FAILED,
                 statusMessage := some "Payment failed" }))
    else
      .error "Record to update not found"
  | none => .ok db

/-- A payment-processor webhook event after `constructEvent`: the handled
kinds carry their payload, everything else is logged and ignored. -/
inductive StripeEvent where
  | checkoutCompleted (s : SessionMeta)
  | checkoutExpired (s : SessionMeta)
  | paymentSucceeded (intentId : String)
  | paymentFailed (intentId : String) (errMsg : Option String)
  | other (t : String)
  deriving DecidableEq, Repr

/-- The `event.type` string of a webhook event. -/
def StripeEvent.typeName : StripeEvent → String
  | .checkoutCompleted _ => "checkout.session.completed"
  | .checkoutExpired _ => "checkout.session.expired"
  | .paymentSucceeded _ => "payment_intent.succeeded"
  | .paymentFailed _ _ => "payment_intent.payment_failed"
  | .other t => t

/-- Embedding of `PaymentService.handleWebhook`.  `sigValid` is the outcome of
`stripe.webhooks.constructEvent`: when false it throws the signature
verification error, mapped to `INVALID_SIGNATURE`; a handler throwing maps to
`WEBHOOK_FAILED` (the atomic handlers left the store unchanged). -/
def handleWebhook (sigValid : Bool) (now : Nat) (event : StripeEvent) (db : DB) :
    DB × ServiceResult (Bool × String) :=
  if !sigValid then
    (db, .error "INVALID_SIGNATURE" "Invalid webhook signature")
  else
    let dispatched : Except String DB :=
      match event with
      | .checkoutCompleted s => (handleCheckoutCompleted now s db).map (fun x => x.1)
      | .checkoutExpired s => handleCheckoutExpired s db
      | .paymentSucceeded i => handlePaymentSucceeded now i db
      | .paymentFailed i e => handlePaymentFailed i e db
      | .other _ => .ok db
    match dispatched with
    | .ok dbNew => (dbNew, .success (true, event.typeName))
    | .error m => (db, .error "WEBHOOK_FAILED" m)

/-- Shape of the HTTP reply of the `POST /payments/webhook` route: its status
code, whether the body carries `received: true`, and the `error` field of the
body when present. -/
structure WebhookHttpResponse where
  status : Nat
  received : Bool
  errorMessage : Option String := none
  deriving DecidableEq, Repr

/-- Embedding of the `POST /payments/webhook` route handler of the payment
controller.  A missing `stripe-signature` header throws a `ValidationError`
caught by the route's own catch, which replies 200; a failure result from
`handleWebhook` is replied with status 400. -/
def webhookRoute (hasSignature sigValid : Bool) (now : Nat)
    (event : StripeEvent) (db : DB) : DB × WebhookHttpResponse :=
  if !hasSignature then
    (db, { status := 200, received := true, errorMessage := some "Processing failed" })
  else
    match handleWebhook sigValid now event db with
    | (dbNew, .success _) => (dbNew, { status := 200, received := true })
    | (dbNew, .error _ m) => (dbNew, { status := 400, received := false,
                                       errorMessage := some m })

/-- Embedding of `OrderService.cancelOrder` (thrown errors as `Except`). -/
def cancelOrder (db : DB) (oid : Nat) : Except String DB :=
  match findOrder db oid with
  | none => .error "Order not found"
  | some o =>
    if o.status ≠ OrderStatus.PENDING_PAYMENT then
      .error ("Cannot cancel order with status: " ++ o.status.name)
    else
      .ok (updateOrder db oid (fun x =>
        { x with status := OrderStatus.CANCELLED,
                 statusMessage := some "Cancelled by user" }))

/-- A hosted-checkout session object as returned by the payment processor. -/
structure StripeSession where
  id : String
  url : Option String := none
  deriving DecidableEq, Repr

/-- Environment of one `createCheckoutSession` invocation: the processor's
responses (a thrown call is `Except.error`) and the fresh identifiers the
store and the id generators hand out. -/
structure CheckoutEnv where
  retrieveSession : String → Except String StripeSession
  createSession : Except String StripeSession
  newCustomerId : String
  newOrderId : Nat
  newPaymentId : Nat
  newOrderNumber : String
  genOrderIdemKey : String
  genPaymentIdemKey : String

/-- The `ICheckoutResult` of a successful `createCheckoutSession`. -/
structure CheckoutResult where
  sessionId : String
  sessionUrl : String
  orderId : Nat
  paymentId : Nat
  deriving DecidableEq, Repr

/-- Embedding of `PaymentService.createCheckoutSession`.  Thrown Stripe calls
are caught by the outer catch as `STRIPE_ERROR`; a unique-constraint
violation on `Order.idempotencyKey` during the atomic order+payment creation
is a non-Stripe throw caught as `CHECKOUT_FAILED`. -/
def createCheckoutSession (env : CheckoutEnv) (db : DB)
    (userId planId : Nat) (idemKey : Option String) :
    DB × ServiceResult CheckoutResult :=
  let idemStep : Option (DB × ServiceResult CheckoutResult) :=
    match idemKey with
    | none => none
    | some k =>
      match db.orders.find? (fun o => o.idempotencyKey == some k) with
      | none => none
      | some existingOrder =>
        match (db.payments.filter (fun p => p.orderId == existingOrder.id)).head? with
        | none => none
        | some payment =>
          match payment.stripeSessionId with
          | none => none
          | some sid =>
            match env.retrieveSession sid with
            | .error m => some (db, .error "STRIPE_ERROR" m)
            | .ok s => some (db, .success
                { sessionId := s.id, sessionUrl := s.url.getD "",
                  orderId := existingOrder.id, paymentId := payment.id })
  match idemStep with
  | some out => out
  | none =>
    match db.plans.find? (fun p => p.id == planId) with
    | none => (db, .error "PLAN_NOT_FOUND" "Storage plan not found")
    | some plan =>
      if !(plan.status == PlanStatus.AVAILABLE && plan.isActive) then
        (db, .error "PLAN_UNAVAILABLE" "This storage plan is no longer available")
      else
        match db.users.find? (fun u => u.id == userId) with
        | none => (db, .error "USER_NOT_FOUND" "User not found")
        | some user =>
          let customered :=
            match user.stripeCustomerId with
            | some c => (db, c)
            | none =>
              (updateUser db userId (fun u =>
                { u with stripeCustomerId := some env.newCustomerId }),
               env.newCustomerId)
          let db1 := customered.1
          let okey := idemKey.getD env.genOrderIdemKey
          if db1.orders.any (fun o => o.idempotencyKey == some okey) then
            -- `order.create` violates the unique index on idempotencyKey.
            (db1, .error "CHECKOUT_FAILED"
              "Unique constraint failed on the fields: (idempotency_key)")
          else
            let order : Order :=
              { id := env.newOrderId, orderNumber := env.newOrderNumber,
                userId := userId, providerId := plan.providerId, planId := plan.id,
                storageSizeGb := plan.storageSizeGb,
                durationDays := plan.durationDays,
                priceUsdCents := plan.priceUsdCents,
                status := OrderStatus.PENDING_PAYMENT,
                idempotencyKey := some okey }
            let payment : Payment :=
              { id := env.newPaymentId, orderId := env.newOrderId,
                userId := userId, amountCents := plan.priceUsdCents,
                status := PaymentStatus.PENDING,
                idempotencyKey := env.genPaymentIdemKey }
            let db2 := { db1 with orders := db1.orders ++ [order],
                                  payments := db1.payments ++ [payment] }
            match env.createSession with
            | .error m => (db2, .error "STRIPE_ERROR" m)
            | .ok s =>
              let db3 := updatePayment db2 env.newPaymentId
                (fun p => { p with stripeSessionId := some s.id })
              (db3, .success
                { sessionId := s.id, sessionUrl := s.url.getD "",
                  orderId := env.newOrderId, paymentId := env.newPaymentId })

/-! Generic store lemmas: a keyed update is transparent to a lookup on the
same key. -/

/-- Mapping a conditional rewrite over a list commutes with `find?` on the same
predicate, provided the rewrite preserves the predicate. -/
theorem find?_map_ite {α : Type} (p : α → Bool) (f : α → α)
    (hpf : ∀ a, p (f a) = p a) :
    ∀ l : List α,
      (l.map (fun a => if p a then f a else a)).find? p = (l.find? p).map f := by
  intro l
  induction l with
  | nil => rfl
  | cons a l ih =>
    simp only [List.map_cons]
    by_cases h : p a = true
    · rw [if_pos h, List.find?_cons_of_pos _ (by rw [hpf]; exact h),
          List.find?_cons_of_pos _ h, Option.map_some']
    · rw [if_neg h, List.find?_cons_of_neg _ (by simpa using h),
          List.find?_cons_of_neg _ (by simpa using h), ih]

/-- Updating an order row is transparent to `findOrder` on the same id when
the update keeps the id. -/
theorem findOrder_updateOrder (db : DB) (oid : Nat) (f : Order → Order)
    (hf : ∀ o, (f o).id = o.id) :
    findOrder (updateOrder db oid f) oid = (findOrder db oid).map f := by
  simp only [findOrder, updateOrder]
  exact find?_map_ite (fun o => o.id == oid) f (fun o => by simp only [hf]) db.orders

/-- Updating a payment row is transparent to `findPayment` on the same id when
the update keeps the id. -/
theorem findPayment_updatePayment (db : DB) (pid : Nat) (f : Payment → Payment)
    (hf : ∀ p, (f p).id = p.id) :
    findPayment (updatePayment db pid f) pid = (findPayment db pid).map f := by
  simp only [findPayment, updatePayment]
  exact find?_map_ite (fun p => p.id == pid) f (fun p => by simp only [hf]) db.payments

/-- Updating a transaction row is transparent to `findTx` on the same id when
the update keeps the id. -/
theorem findTx_updateTx (db : DB) (tid : Nat)
    (f : BlockchainTransaction → BlockchainTransaction)
    (hf : ∀ t, (f t).id = t.id) :
    findTx (updateTx db tid f) tid = (findTx db tid).map f := by
  simp only [findTx, updateTx]
  exact find?_map_ite (fun t => t.id == tid) f (fun t => by simp only [hf]) db.transactions

/-- Updating orders leaves transaction lookups untouched. -/
theorem findTx_updateOrder (db : DB) (oid : Nat) (f : Order → Order) (tid : Nat) :
    findTx (updateOrder db oid f) tid = findTx db tid := rfl

/-- Updating transactions leaves order lookups untouched. -/
theorem findOrder_updateTx (db : DB) (tid : Nat)
    (f : BlockchainTransaction → BlockchainTransaction) (oid : Nat) :
    findOrder (updateTx db tid f) oid = findOrder db oid := rfl

/-- Updating orders leaves payment lookups untouched. -/
theorem findPayment_updateOrder (db : DB) (oid : Nat) (f : Order → Order) (pid : Nat) :
    findPayment (updateOrder db oid f) pid = findPayment db pid := rfl

/-- Updating payments leaves order lookups untouched. -/
theorem findOrder_updatePayment (db : DB) (pid : Nat) (f : Payment → Payment) (oid : Nat) :
    findOrder (updatePayment db pid f) oid = findOrder db oid := rfl

/-- Updating orders leaves the transaction list untouched. -/
theorem transactions_updateOrder (db : DB) (oid : Nat) (f : Order → Order) :
    (updateOrder db oid f).transactions = db.transactions := rfl

/-- Replacing the transaction list reroutes a transaction lookup to it. -/
theorem findTx_setTransactions (db : DB) (l : List BlockchainTransaction) (tid : Nat) :
    findTx { db with transactions := l } tid = l.find? (fun t => t.id == tid) := rfl

/-- Replacing the transaction list leaves order lookups untouched. -/
theorem findOrder_setTransactions (db : DB) (l : List BlockchainTransaction) (oid : Nat) :
    findOrder { db with transactions := l } oid = findOrder db oid := rfl

/-- Appending a row with a fresh id and looking that id up finds exactly the
new row. -/
theorem find?_append_fresh {α : Type} (p : α → Bool) (l : List α) (x : α)
    (hl : ∀ a ∈ l, ¬ p a) (hx : p x = true) :
    (l ++ [x]).find? p = some x := by
  rw [List.find?_append, List.find?_eq_none.mpr hl, Option.none_or,
      List.find?_cons_of_pos _ hx]

/-- C1.  For every order, `processOrder` returns `INVALID_ORDER_STATUS` unless
the order's status is `PAYMENT_COMPLETED`; and if a non-FAILED
`BlockchainTransaction` already exists for the order, it returns that
transaction's id as a success with the store unchanged (no new row, order
untouched) and the result is the same for every environment, so the provider
adapter is never consulted. -/
theorem c1_processOrder_guards (env : ProcessEnv) (db : DB) (oid : Nat)
    (order : Order) (hfind : findOrder db oid = some order) :
    (order.status ≠ OrderStatus.PAYMENT_COMPLETED →
      processOrder env db oid =
        (db, .error "INVALID_ORDER_STATUS"
          ("Order status is " ++ order.status.name ++ ", expected PAYMENT_COMPLETED"))) ∧
    (∀ tx : BlockchainTransaction,
      order.status = OrderStatus.PAYMENT_COMPLETED →
      (orderTransactions db oid).find?
          (fun t => t.status != TransactionStatus.FAILED) = some tx →
      ∀ envAlt : ProcessEnv, processOrder envAlt db oid = (db, .success tx.id)) := by
  constructor
  · intro hne
    simp only [processOrder, hfind]
    rw [if_pos hne]
  · intro tx hs htx envAlt
    simp only [processOrder, hfind, htx]
    rw [if_neg (not_not_intro hs)]

/-- Environment used by the C1 witness; its adapter outcome never matters. -/
def c1Env : ProcessEnv := { now := 0, newTxId := 9, adapterOutcome := .throws "unused" }

/-- Order row used by the C1 witness. -/
def c1Order : Order :=
  { id := 1, orderNumber := "ORD-A", userId := 1, providerId := 1,
    planId := 1, storageSizeGb := 1, durationDays := 180,
    priceUsdCents := 99, status := OrderStatus.CANCELLED }

/-- Live transaction row used by the C1 witness. -/
def c1Tx : BlockchainTransaction :=
  { id := 5, orderId := 1, providerId := 1, status := TransactionStatus.PENDING }

/-- Store with a CANCELLED order, for the C1 witness. -/
def c1DbA : DB := { orders := [c1Order] }

/-- Store with a PAYMENT_COMPLETED order and a live transaction, for the C1
witness. -/
def c1DbB : DB :=
  { orders := [{ c1Order with status := OrderStatus.PAYMENT_COMPLETED }],
    transactions := [c1Tx] }

/-- C1 witness: a CANCELLED order is rejected with `INVALID_ORDER_STATUS`, and
a PAYMENT_COMPLETED order with a live PENDING transaction row 5 short-circuits
to success 5 leaving the store unchanged. -/
theorem c1_processOrder_guards_witness :
    processOrder c1Env c1DbA 1 =
      (c1DbA, .error "INVALID_ORDER_STATUS"
        "Order status is CANCELLED, expected PAYMENT_COMPLETED") ∧
    processOrder c1Env c1DbB 1 = (c1DbB, .success 5) := by
  constructor
  · exact (c1_processOrder_guards c1Env c1DbA 1 c1Order rfl).1 (by decide)
  · exact (c1_processOrder_guards c1Env c1DbB 1
      { c1Order with status := OrderStatus.PAYMENT_COMPLETED } rfl).2
      c1Tx rfl rfl c1Env

/-- C5.  A `checkout.session.completed` event whose payment is already
SUCCEEDED is a no-op (store unchanged, no allocation scheduled); and more
generally a second handling of the same event after any successful handling
changes nothing, so handling the event n times equals handling it once. -/
theorem c5_completed_idempotent :
    (∀ (now : Nat) (s : SessionMeta) (db : DB) (pid : Nat) (p : Payment),
      s.paymentId = some pid →
      findPayment db pid = some p → p.status = PaymentStatus.SUCCEEDED →
      handleCheckoutCompleted now s db = .ok (db, false)) ∧
    (∀ (now nowAlt : Nat) (s : SessionMeta) (db dbNew : DB) (b : Bool),
      handleCheckoutCompleted now s db = .ok (dbNew, b) →
      handleCheckoutCompleted nowAlt s dbNew = .ok (dbNew, false)) := by
  constructor
  · intro now s db pid p hpid hp hs
    cases ho : s.orderId with
    | none => simp [handleCheckoutCompleted, ho]
    | some oid => simp [handleCheckoutCompleted, ho, hpid, hp, hs]
  · intro now nowAlt s db dbNew b h
    cases ho : s.orderId with
    | none =>
      simp only [handleCheckoutCompleted, ho] at h
      obtain ⟨h1, h2⟩ := by exact Prod.mk.injEq .. ▸ Except.ok.inj h
      subst h1
      simp [handleCheckoutCompleted, ho]
    | some oid =>
      cases hpid : s.paymentId with
      | none =>
        simp only [handleCheckoutCompleted, ho, hpid] at h
        obtain ⟨h1, h2⟩ := by exact Prod.mk.injEq .. ▸ Except.ok.inj h
        subst h1
        simp [handleCheckoutCompleted, ho, hpid]
      | some pid =>
        cases hp : findPayment db pid with
        | none =>
          simp [handleCheckoutCompleted, ho, hpid, hp] at h
        | some p =>
          by_cases hs : p.status = PaymentStatus.SUCCEEDED
          · simp only [handleCheckoutCompleted, ho, hpid, hp, hs] at h
            simp only [beq_self_eq_true, if_true] at h
            obtain ⟨h1, h2⟩ := by exact Prod.mk.injEq .. ▸ Except.ok.inj h
            subst h1
            simp [handleCheckoutCompleted, ho, hpid, hp, hs]
          · cases hord : findOrder db oid with
            | none =>
              simp [handleCheckoutCompleted, ho, hpid, hp, hord,
                    beq_iff_eq, hs] at h
            | some o =>
              simp only [handleCheckoutCompleted, ho, hpid, hp, hord] at h
              rw [if_neg (by simpa using hs)] at h
              simp only [Option.isSome_some, Bool.and_self, if_true] at h
              obtain ⟨h1, h2⟩ := by exact Prod.mk.injEq .. ▸ Except.ok.inj h
              have hp2 : findPayment dbNew pid =
                  some { p with status := PaymentStatus.SUCCEEDED,
                                stripePaymentIntentId := s.paymentIntent,
                                processedAt := some now } := by
                rw [← h1]
                have : findPayment (updatePayment db pid (fun q =>
                    { q with status := PaymentStatus.SUCCEEDED,
                             stripePaymentIntentId := s.paymentIntent,
                             processedAt := some now })) pid =
                    (findPayment db pid).map (fun q =>
                    { q with status := PaymentStatus.SUCCEEDED,
                             stripePaymentIntentId := s.paymentIntent,
                             processedAt := some now }) :=
                  findPayment_updatePayment db pid _ (fun q => rfl)
                simpa [hp] using this
              simp [handleCheckoutCompleted, ho, hpid, hp2]

/-- C5 witness: on a store whose payment 1 is SUCCEEDED the event is a no-op,
and re-handling the result of a successful handling changes nothing. -/
theorem c5_completed_idempotent_witness :
    handleCheckoutCompleted 7
      { sessionId := "cs_1", orderId := some 1, paymentId := some 1 }
      { payments := [{ id := 1, orderId := 1, userId := 1, amountCents := 99,
                       status := PaymentStatus.SUCCEEDED, idempotencyKey := "pk" }] } =
      .ok ({ payments := [{ id := 1, orderId := 1, userId := 1, amountCents := 99,
                            status := PaymentStatus.SUCCEEDED, idempotencyKey := "pk" }] },
           false) ∧
    handleCheckoutCompleted 8
      { sessionId := "cs_1", orderId := some 1, paymentId := some 1 }
      { payments := [{ id := 1, orderId := 1, userId := 1, amountCents := 99,
                       status := PaymentStatus.SUCCEEDED, idempotencyKey := "pk" }] } =
      .ok ({ payments := [{ id := 1, orderId := 1, userId := 1, amountCents := 99,
                            status := PaymentStatus.SUCCEEDED, idempotencyKey := "pk" }] },
           false) := by
  constructor
  · exact c5_completed_idempotent.1 7 _ _ 1 _ rfl rfl rfl
  · exact c5_completed_idempotent.2 7 8 _ _ _ false
      (c5_completed_idempotent.1 7 _ _ 1 _ rfl rfl rfl)

/-- C6.  When the confirmation poller observes adapter status CONFIRMED for a
live transaction, it stops polling, records `confirmedAt = now` on the
transaction, and sets the order to COMPLETED with `allocatedAt = now` and
`expiresAt = allocatedAt + durationDays` (exactly, in the single-clock
model). -/
theorem c6_poll_confirmed (statusOf : String → StatusResult) (now : Nat)
    (db : DB) (txId : Nat) (tx : BlockchainTransaction) (h : String)
    (order : Order)
    (htx : findTx db txId = some tx) (hh : tx.txHash = some h)
    (hnc : tx.status ≠ TransactionStatus.CONFIRMED)
    (hnf : tx.status ≠ TransactionStatus.FAILED)
    (hord : findOrder db tx.orderId = some order)
    (hst : (statusOf h).status = TransactionStatus.CONFIRMED) :
    (pollIteration statusOf now db txId).2 = true ∧
    (∃ txNew, findTx (pollIteration statusOf now db txId).1 txId = some txNew ∧
      txNew.status = TransactionStatus.CONFIRMED ∧
      txNew.confirmedAt = some now) ∧
    (∃ oNew, findOrder (pollIteration statusOf now db txId).1 tx.orderId = some oNew ∧
      oNew.status = OrderStatus.COMPLETED ∧
      oNew.allocatedAt = some now ∧
      oNew.durationDays = order.durationDays ∧
      oNew.expiresAt = oNew.allocatedAt.map (fun a => addDays a oNew.durationDays)) := by
  have hrun : pollIteration statusOf now db txId =
      (updateOrder (updateTx db txId (fun t =>
          { t with status := (statusOf h).status,
                   confirmations := (statusOf h).confirmations,
                   blockNumber := (statusOf h).blockNumber <|> t.blockNumber,
                   blockHash := (statusOf h).blockHash <|> t.blockHash,
                   gasUsed := (statusOf h).gasUsed <|> t.gasUsed,
                   confirmedAt :=
                     if (statusOf h).status == TransactionStatus.CONFIRMED then some now
                     else t.confirmedAt,
                   statusMessage := (statusOf h).error <|> t.statusMessage }))
        tx.orderId (fun o =>
          { o with status := OrderStatus.COMPLETED,
                   allocatedAt := some now,
                   expiresAt := some (addDays now o.durationDays) }),
       true) := by
    simp only [pollIteration, htx, hh]
    rw [if_neg (by simp [hnc, hnf]), if_pos (by simp [hst])]
  refine ⟨by rw [hrun], ?_, ?_⟩
  · have hfind : findTx (pollIteration statusOf now db txId).1 txId = some
        { tx with status := (statusOf h).status,
                  confirmations := (statusOf h).confirmations,
                  blockNumber := (statusOf h).blockNumber <|> tx.blockNumber,
                  blockHash := (statusOf h).blockHash <|> tx.blockHash,
                  gasUsed := (statusOf h).gasUsed <|> tx.gasUsed,
                  confirmedAt :=
                    if (statusOf h).status == TransactionStatus.CONFIRMED then some now
                    else tx.confirmedAt,
                  statusMessage := (statusOf h).error <|> tx.statusMessage } := by
      rw [hrun, findTx_updateOrder, findTx_updateTx db txId, htx, Option.map_some']
      exact fun t => rfl
    exact ⟨_, hfind, by simp [hst], by simp [hst]⟩
  · have hfind : findOrder (pollIteration statusOf now db txId).1 tx.orderId = some
        { order with status := OrderStatus.COMPLETED,
                     allocatedAt := some now,
                     expiresAt := some (addDays now order.durationDays) } := by
      rw [hrun, findOrder_updateOrder _ tx.orderId, findOrder_updateTx, hord,
          Option.map_some']
      exact fun o => rfl
    exact ⟨_, hfind, rfl, rfl, rfl, by simp⟩

/-- C7.  When the adapter's `executeStorageTransaction` returns an
unsuccessful result, `processOrder` sets the transaction row it created to
FAILED carrying the adapter's error message, sets the order to
BLOCKCHAIN_FAILED, and returns `TRANSACTION_FAILED`. -/
theorem c7_submission_failure (env : ProcessEnv) (db : DB) (oid : Nat)
    (order : Order) (r : TxResult)
    (hfind : findOrder db oid = some order)
    (hs : order.status = OrderStatus.PAYMENT_COMPLETED)
    (hnoex : (orderTransactions db oid).find?
      (fun t => t.status != TransactionStatus.FAILED) = none)
    (hlk : env.adapterLookupError = none)
    (hout : env.adapterOutcome = .result r)
    (hfail : r.success = false)
    (hfresh : ∀ t ∈ db.transactions, ¬ (t.id == env.newTxId) = true) :
    (processOrder env db oid).2 =
      .error "TRANSACTION_FAILED" (r.error.getD "Transaction failed") ∧
    (∃ txNew, findTx (processOrder env db oid).1 env.newTxId = some txNew ∧
      txNew.status = TransactionStatus.FAILED ∧
      txNew.statusMessage = some (r.error.getD "Transaction failed")) ∧
    (∃ oNew, findOrder (processOrder env db oid).1 oid = some oNew ∧
      oNew.status = OrderStatus.BLOCKCHAIN_FAILED ∧
      oNew.statusMessage = some (r.error.getD "Blockchain transaction failed")) := by
  refine ⟨?_, ?_, ?_⟩
  · simp only [processOrder, hfind, hnoex, hlk, hout]
    rw [if_neg (not_not_intro hs)]
    simp [hfail]
  · simp only [processOrder, hfind, hnoex, hlk, hout]
    rw [if_neg (not_not_intro hs)]
    simp only [hfail, Bool.false_and, Bool.false_eq_true, if_false]
    rw [findTx_updateOrder, findTx_updateTx]
    · rw [findTx_updateOrder, findTx_setTransactions, transactions_updateOrder,
          find?_append_fresh _ _ _ hfresh (by simp), Option.map_some']
      exact ⟨_, rfl, rfl, rfl⟩
    · exact fun t => rfl
  · simp only [processOrder, hfind, hnoex, hlk, hout]
    rw [if_neg (not_not_intro hs)]
    simp only [hfail, Bool.false_and, Bool.false_eq_true, if_false]
    rw [findOrder_updateOrder _ oid, findOrder_updateTx,
        findOrder_updateOrder _ oid, findOrder_setTransactions,
        findOrder_updateOrder _ oid, hfind]
    · exact ⟨_, rfl, rfl, rfl⟩
    · exact fun o => rfl
    · exact fun o => rfl
    · exact fun o => rfl

/-- C10.  When the adapter call itself throws after the transaction row was
created, the catch path marks the order BLOCKCHAIN_FAILED and returns
`PROCESSING_FAILED`, but the transaction row stays PENDING (not FAILED), so
`retryTransaction` on it always answers `INVALID_STATUS`: the order retains a
non-FAILED transaction alongside a BLOCKCHAIN_FAILED status. -/
theorem c10_catch_leaves_pending (env : ProcessEnv) (db : DB) (oid : Nat)
    (order : Order) (msg : String)
    (hfind : findOrder db oid = some order)
    (hs : order.status = OrderStatus.PAYMENT_COMPLETED)
    (hnoex : (orderTransactions db oid).find?
      (fun t => t.status != TransactionStatus.FAILED) = none)
    (hlk : env.adapterLookupError = none)
    (hout : env.adapterOutcome = .throws msg)
    (hfresh : ∀ t ∈ db.transactions, ¬ (t.id == env.newTxId) = true) :
    (processOrder env db oid).2 = .error "PROCESSING_FAILED" msg ∧
    (∃ txNew, findTx (processOrder env db oid).1 env.newTxId = some txNew ∧
      txNew.status = TransactionStatus.PENDING ∧
      txNew.status ≠ TransactionStatus.FAILED) ∧
    (∃ oNew, findOrder (processOrder env db oid).1 oid = some oNew ∧
      oNew.status = OrderStatus.BLOCKCHAIN_FAILED ∧
      oNew.statusMessage = some msg) ∧
    (∀ envAlt : ProcessEnv,
      retryTransaction envAlt (processOrder env db oid).1 env.newTxId =
        ((processOrder env db oid).1,
         .error "INVALID_STATUS" "Can only retry failed transactions")) := by
  have htxNew : findTx (processOrder env db oid).1 env.newTxId = some
      { id := env.newTxId, orderId := oid, providerId := order.providerId,
        status := TransactionStatus.PENDING } := by
    simp only [processOrder, hfind, hnoex, hlk, hout]
    rw [if_neg (not_not_intro hs)]
    rw [findTx_updateOrder, findTx_updateOrder, findTx_setTransactions,
        transactions_updateOrder, find?_append_fresh _ _ _ hfresh (by simp)]
  refine ⟨?_, ⟨_, htxNew, rfl, ?_⟩, ?_, ?_⟩
  · simp only [processOrder, hfind, hnoex, hlk, hout]
    rw [if_neg (not_not_intro hs)]
  · exact fun hcontr => nomatch hcontr
  · simp only [processOrder, hfind, hnoex, hlk, hout]
    rw [if_neg (not_not_intro hs)]
    rw [findOrder_updateOrder _ oid, findOrder_updateOrder _ oid,
        findOrder_setTransactions, findOrder_updateOrder _ oid, hfind]
    · exact ⟨_, rfl, rfl, rfl⟩
    · exact fun o => rfl
    · exact fun o => rfl
    · exact fun o => rfl
  · intro envAlt
    simp only [retryTransaction, htxNew]
    rw [if_pos (fun hcontr => nomatch hcontr)]

/-- Transaction row used by the C6 witness. -/
def c6Tx : BlockchainTransaction :=
  { id := 1, orderId := 1, providerId := 1, status := TransactionStatus.SUBMITTED,
    txHash := some "0xDEAD" }

/-- Order row used by the C6 witness. -/
def c6Order : Order :=
  { id := 1, orderNumber := "ORD-C6", userId := 1, providerId := 1, planId := 1,
    storageSizeGb := 1, durationDays := 180, priceUsdCents := 99,
    status := OrderStatus.BLOCKCHAIN_PROCESSING }

/-- Store used by the C6 witness. -/
def c6Db : DB := { orders := [c6Order], transactions := [c6Tx] }

/-- Adapter probe used by the C6 witness: six confirmations, CONFIRMED. -/
def c6Probe : String → StatusResult :=
  fun _ => { status := TransactionStatus.CONFIRMED, confirmations := 6 }

/-- C6 witness: polling the SUBMITTED transaction once at time 500 stops,
stamps `confirmedAt`, and completes the 180-day order. -/
theorem c6_poll_confirmed_witness :
    (pollIteration c6Probe 500 c6Db 1).2 = true ∧
    (∃ txNew, findTx (pollIteration c6Probe 500 c6Db 1).1 1 = some txNew ∧
      txNew.status = TransactionStatus.CONFIRMED ∧
      txNew.confirmedAt = some 500) ∧
    (∃ oNew, findOrder (pollIteration c6Probe 500 c6Db 1).1 c6Tx.orderId = some oNew ∧
      oNew.status = OrderStatus.COMPLETED ∧
      oNew.allocatedAt = some 500 ∧
      oNew.durationDays = c6Order.durationDays ∧
      oNew.expiresAt = oNew.allocatedAt.map (fun a => addDays a oNew.durationDays)) :=
  c6_poll_confirmed c6Probe 500 c6Db 1 c6Tx "0xDEAD" c6Order rfl rfl
    (by simp [c6Tx]) (by simp [c6Tx]) rfl rfl

/-- Order row used by the C7 witness. -/
def c7Order : Order :=
  { id := 1, orderNumber := "ORD-C7", userId := 1, providerId := 1, planId := 1,
    storageSizeGb := 1, durationDays := 180, priceUsdCents := 99,
    status := OrderStatus.PAYMENT_COMPLETED }

/-- Store used by the C7 witness. -/
def c7Db : DB := { orders := [c7Order] }

/-- Unsuccessful adapter result used by the C7 witness. -/
def c7Result : TxResult :=
  { success := false, status := TransactionStatus.FAILED, error := some "out of funds" }

/-- Environment used by the C7 witness. -/
def c7Env : ProcessEnv := { now := 3, newTxId := 7, adapterOutcome := .result c7Result }

/-- C7 witness: the adapter failing with "out of funds" leaves a FAILED
transaction row 7 carrying the message, a BLOCKCHAIN_FAILED order, and the
`TRANSACTION_FAILED` error. -/
theorem c7_submission_failure_witness :
    (processOrder c7Env c7Db 1).2 = .error "TRANSACTION_FAILED" "out of funds" ∧
    (∃ txNew, findTx (processOrder c7Env c7Db 1).1 7 = some txNew ∧
      txNew.status = TransactionStatus.FAILED ∧
      txNew.statusMessage = some "out of funds") ∧
    (∃ oNew, findOrder (processOrder c7Env c7Db 1).1 1 = some oNew ∧
      oNew.status = OrderStatus.BLOCKCHAIN_FAILED ∧
      oNew.statusMessage = some "out of funds") :=
  c7_submission_failure c7Env c7Db 1 c7Order c7Result rfl rfl rfl rfl rfl rfl
    (by simp [c7Db])

/-- Store used by the C10 witness (same shape as the C7 one). -/
def c10Db : DB :=
  { orders := [{ id := 1, orderNumber := "ORD-C10", userId := 1, providerId := 1,
                 planId := 1, storageSizeGb := 1, durationDays := 180,
                 priceUsdCents := 99, status := OrderStatus.PAYMENT_COMPLETED }] }

/-- Environment used by the C10 witness: the adapter call throws. -/
def c10Env : ProcessEnv :=
  { now := 3, newTxId := 7, adapterOutcome := .throws "RPC connection lost" }

/-- C10 witness: a thrown adapter call leaves transaction row 7 PENDING, the
order BLOCKCHAIN_FAILED, returns `PROCESSING_FAILED`, and the row is not
retryable. -/
theorem c10_catch_leaves_pending_witness :
    (processOrder c10Env c10Db 1).2 = .error "PROCESSING_FAILED" "RPC connection lost" ∧
    (∃ txNew, findTx (processOrder c10Env c10Db 1).1 7 = some txNew ∧
      txNew.status = TransactionStatus.PENDING ∧
      txNew.status ≠ TransactionStatus.FAILED) ∧
    (∃ oNew, findOrder (processOrder c10Env c10Db 1).1 1 = some oNew ∧
      oNew.status = OrderStatus.BLOCKCHAIN_FAILED ∧
      oNew.statusMessage = some "RPC connection lost") ∧
    (∀ envAlt : ProcessEnv,
      retryTransaction envAlt (processOrder c10Env c10Db 1).1 7 =
        ((processOrder c10Env c10Db 1).1,
         .error "INVALID_STATUS" "Can only retry failed transactions")) :=
  c10_catch_leaves_pending c10Env c10Db 1
    { id := 1, orderNumber := "ORD-C10", userId := 1, providerId := 1,
      planId := 1, storageSizeGb := 1, durationDays := 180,
      priceUsdCents := 99, status := OrderStatus.PAYMENT_COMPLETED }
    "RPC connection lost" rfl rfl rfl rfl rfl (by simp [c10Db])

/-- Order row for the C3 scenario-3 replay: submission already failed. -/
def c3Order : Order :=
  { id := 1, orderNumber := "ORD-C3", userId := 1, providerId := 1, planId := 1,
    storageSizeGb := 1, durationDays := 180, priceUsdCents := 99,
    status := OrderStatus.BLOCKCHAIN_FAILED,
    statusMessage := some "out of funds" }

/-- FAILED transaction row for the C3 scenario (retryCount 0, maxRetries 3). -/
def c3Tx : BlockchainTransaction :=
  { id := 1, orderId := 1, providerId := 1, status := TransactionStatus.FAILED,
    statusMessage := some "out of funds" }

/-- Store for the C3 scenario. -/
def c3Db : DB := { orders := [c3Order], transactions := [c3Tx] }

/-- Environment for the C3 scenario: the adapter would fail again. -/
def c3Env : ProcessEnv :=
  { now := 10, newTxId := 2,
    adapterOutcome := .result
      { success := false, status := TransactionStatus.FAILED,
        error := some "out of funds" } }

/-- First operator invocation of `retryTransaction` in the C3 scenario. -/
def c3Step1 : DB × ServiceResult Nat := retryTransaction c3Env c3Db 1

/-- Second operator invocation, on the state the first one left. -/
def c3Step2 : DB × ServiceResult Nat := retryTransaction c3Env c3Step1.1 1

/-- Third operator invocation. -/
def c3Step3 : DB × ServiceResult Nat := retryTransaction c3Env c3Step2.1 1

/-- Fourth operator invocation. -/
def c3Step4 : DB × ServiceResult Nat := retryTransaction c3Env c3Step3.1 1

/-- C3 counterexample: replaying scenario 3 (submission failed with "out of
funds", retryCount 0, maxRetries 3), the fourth `retryTransaction` invocation
returns `INVALID_STATUS`, not the claimed `MAX_RETRIES`; indeed already the
second one does, because the first retry left the transaction RETRYING (the
re-entered orchestrator rejected the BLOCKCHAIN_FAILED order) and retryCount
stuck at 1. -/
theorem c3_counterexample :
    c3Step4.2 = .error "INVALID_STATUS" "Can only retry failed transactions" ∧
    c3Step4.2 ≠ .error "MAX_RETRIES" "Maximum retry attempts reached" ∧
    c3Step2.2 = .error "INVALID_STATUS" "Can only retry failed transactions" ∧
    (findTx c3Step4.1 1).map BlockchainTransaction.retryCount = some 1 := by
  refine ⟨rfl, ?_, rfl, rfl⟩
  intro hcontr
  exact absurd (rfl.symm.trans hcontr) (by decide)

/-- C3 amended.  `retryTransaction` returns `INVALID_STATUS` unless the
transaction is FAILED, `MAX_RETRIES` when it is FAILED with retryCount ≥
maxRetries, and otherwise increments retryCount, records lastRetryAt, sets
RETRYING and re-enters `processOrder` on the same orderId; but in scenario 3
the re-entered orchestrator rejects the BLOCKCHAIN_FAILED order with
`INVALID_ORDER_STATUS`, leaving the transaction RETRYING, so the second and
every later invocation (the fourth included) returns `INVALID_STATUS` rather
than ever reaching `MAX_RETRIES`. -/
theorem c3_retry_contract_amended :
    (∀ (env : ProcessEnv) (db : DB) (txId : Nat) (tx : BlockchainTransaction),
      findTx db txId = some tx →
      (tx.status ≠ TransactionStatus.FAILED →
        retryTransaction env db txId =
          (db, .error "INVALID_STATUS" "Can only retry failed transactions")) ∧
      (tx.status = TransactionStatus.FAILED → tx.maxRetries ≤ tx.retryCount →
        retryTransaction env db txId =
          (db, .error "MAX_RETRIES" "Maximum retry attempts reached")) ∧
      (tx.status = TransactionStatus.FAILED → tx.retryCount < tx.maxRetries →
        retryTransaction env db txId =
          processOrder env
            (updateTx db txId (fun t =>
              { t with retryCount := t.retryCount + 1,
                       lastRetryAt := some env.now,
                       status := TransactionStatus.RETRYING }))
            tx.orderId)) ∧
    c3Step1.2 = .error "INVALID_ORDER_STATUS"
      "Order status is BLOCKCHAIN_FAILED, expected PAYMENT_COMPLETED" ∧
    (findTx c3Step1.1 1).map BlockchainTransaction.retryCount = some 1 ∧
    (findTx c3Step1.1 1).map BlockchainTransaction.status =
      some TransactionStatus.RETRYING ∧
    (findTx c3Step1.1 1).map BlockchainTransaction.lastRetryAt = some (some 10) ∧
    c3Step2.2 = .error "INVALID_STATUS" "Can only retry failed transactions" ∧
    c3Step4.2 = .error "INVALID_STATUS" "Can only retry failed transactions" := by
  refine ⟨?_, rfl, rfl, rfl, rfl, rfl, rfl⟩
  intro env db txId tx hfind
  refine ⟨?_, ?_, ?_⟩
  · intro hne
    simp only [retryTransaction, hfind]
    rw [if_pos hne]
  · intro hs hmax
    simp only [retryTransaction, hfind]
    rw [if_neg (not_not_intro hs), if_pos hmax]
  · intro hs hlt
    simp only [retryTransaction, hfind]
    rw [if_neg (not_not_intro hs), if_neg (Nat.not_le.mpr hlt)]

/-- Store for the C3 MAX_RETRIES branch witness: budget already exhausted. -/
def c3MaxDb : DB :=
  { orders := [c3Order],
    transactions := [{ c3Tx with retryCount := 3 }] }

/-- C3 amended witness: with the budget exhausted the call answers
`MAX_RETRIES`; with budget left it re-enters `processOrder` on the marked
store. -/
theorem c3_retry_contract_amended_witness :
    retryTransaction c3Env c3MaxDb 1 =
      (c3MaxDb, .error "MAX_RETRIES" "Maximum retry attempts reached") ∧
    retryTransaction c3Env c3Db 1 =
      processOrder c3Env
        (updateTx c3Db 1 (fun t =>
          { t with retryCount := t.retryCount + 1,
                   lastRetryAt := some 10,
                   status := TransactionStatus.RETRYING })) 1 :=
  ⟨(c3_retry_contract_amended.1 c3Env c3MaxDb 1 { c3Tx with retryCount := 3 }
      rfl).2.1 rfl (by decide),
   (c3_retry_contract_amended.1 c3Env c3Db 1 c3Tx rfl).2.2 rfl (by decide)⟩

/-- C9.  The Filecoin adapter's `checkTransactionStatus` (initialized, with a
provider): no receipt gives PENDING with 0 confirmations; a receipt with
status 0 gives FAILED with error "Transaction reverted"; a receipt with
nonzero status gives CONFIRMED exactly when `currentBlock - receipt.block ≥ 5`
and CONFIRMING exactly when it is below 5. -/
theorem c9_filecoin_check_status (cb : Int) :
    filecoinCheckTransactionStatus true true (.ok none) (.ok cb) =
      .ok { status := TransactionStatus.PENDING, confirmations := 0 } ∧
    (∀ r : Receipt, r.rstatus = 0 →
      ∃ s, filecoinCheckTransactionStatus true true (.ok (some r)) (.ok cb) = .ok s ∧
        s.status = TransactionStatus.FAILED ∧
        s.error = some "Transaction reverted" ∧
        s.confirmations = cb - r.blockNumber) ∧
    (∀ r : Receipt, r.rstatus ≠ 0 →
      ∃ s, filecoinCheckTransactionStatus true true (.ok (some r)) (.ok cb) = .ok s ∧
        s.confirmations = cb - r.blockNumber ∧
        (s.status = TransactionStatus.CONFIRMED ↔ 5 ≤ cb - r.blockNumber) ∧
        (s.status = TransactionStatus.CONFIRMING ↔ cb - r.blockNumber < 5)) := by
  refine ⟨rfl, ?_, ?_⟩
  · intro r hr
    simp only [filecoinCheckTransactionStatus, Bool.not_true, Bool.false_eq_true,
               if_false]
    rw [if_pos (by simp [hr])]
    exact ⟨_, rfl, rfl, rfl, rfl⟩
  · intro r hr
    simp only [filecoinCheckTransactionStatus, Bool.not_true, Bool.false_eq_true,
               if_false]
    rw [if_neg (by simp [hr])]
    by_cases hc : 5 ≤ cb - r.blockNumber
    · rw [if_pos hc]
      refine ⟨_, rfl, rfl, ?_, ?_⟩
      · exact Iff.intro (fun _ => hc) (fun _ => rfl)
      · exact Iff.intro (fun hcontr => nomatch hcontr) (fun hlt => absurd hc (by omega))
    · rw [if_neg hc]
      refine ⟨_, rfl, rfl, ?_, ?_⟩
      · exact Iff.intro (fun hcontr => nomatch hcontr) (fun hle => absurd hle hc)
      · exact Iff.intro (fun _ => by omega) (fun _ => rfl)

/-- Receipt with status 0 used in the C9 witness. -/
def c9Reverted : Receipt :=
  { rstatus := 0, blockNumber := 100, blockHash := "0xbh", gasUsed := "21000" }

/-- Receipt with status 1 used in the C9 witness. -/
def c9Good : Receipt :=
  { rstatus := 1, blockNumber := 100, blockHash := "0xbh", gasUsed := "21000" }

/-- C9 witness: at current block 106 a status-1 receipt from block 100 is
CONFIRMED; at block 103 a status-0 receipt is FAILED ("Transaction reverted");
no receipt is PENDING. -/
theorem c9_filecoin_check_status_witness :
    filecoinCheckTransactionStatus true true (.ok none) (.ok 106) =
      .ok { status := TransactionStatus.PENDING, confirmations := 0 } ∧
    (∃ s, filecoinCheckTransactionStatus true true (.ok (some c9Reverted)) (.ok 103) =
        .ok s ∧
      s.status = TransactionStatus.FAILED ∧
      s.error = some "Transaction reverted" ∧
      s.confirmations = 103 - c9Reverted.blockNumber) ∧
    (∃ s, filecoinCheckTransactionStatus true true (.ok (some c9Good)) (.ok 106) =
        .ok s ∧
      s.confirmations = 106 - c9Good.blockNumber ∧
      (s.status = TransactionStatus.CONFIRMED ↔ 5 ≤ (106 : Int) - c9Good.blockNumber) ∧
      (s.status = TransactionStatus.CONFIRMING ↔ (106 : Int) - c9Good.blockNumber < 5)) :=
  ⟨(c9_filecoin_check_status 106).1,
   (c9_filecoin_check_status 103).2.1 c9Reverted rfl,
   (c9_filecoin_check_status 106).2.2 c9Good (by decide)⟩

/-- Order row for the C2 race: freshly created, awaiting payment. -/
def c2Order : Order :=
  { id := 1, orderNumber := "ORD-C2", userId := 1, providerId := 1, planId := 1,
    storageSizeGb := 1, durationDays := 180, priceUsdCents := 99,
    status := OrderStatus.PENDING_PAYMENT }

/-- Payment row for the C2 race (still PENDING: `cancelOrder` never touches
the payment). -/
def c2Payment : Payment :=
  { id := 1, orderId := 1, userId := 1, amountCents := 99,
    status := PaymentStatus.PENDING, idempotencyKey := "pk1" }

/-- Store for the C2 race. -/
def c2Db : DB := { orders := [c2Order], payments := [c2Payment] }

/-- Metadata of the late `checkout.session.completed` event in the C2 race. -/
def c2Meta : SessionMeta :=
  { sessionId := "cs_1", orderId := some 1, paymentId := some 1,
    paymentIntent := some "pi_1" }

/-- Store with an order already past PAYMENT_COMPLETED, for the late-expired
half of C2. -/
def c2DbPaid : DB :=
  { orders := [{ c2Order with
                 status := OrderStatus.PAYMENT_COMPLETED, paidAt := some 50 }],
    payments := [{ c2Payment with status := PaymentStatus.SUCCEEDED }] }

/-- C2 (code bug).  The webhook mutations are NOT guarded by row status: after
`cancelOrder` moves the order to CANCELLED (payment stays PENDING), a late
`checkout.session.completed` re-advances the order to PAYMENT_COMPLETED, marks
the payment SUCCEEDED, and schedules allocation — the claim demanded the order
stay CANCELLED, the payment end CANCELLED, and no allocation.  Likewise a late
`checkout.session.expired` pushes an order already past PAYMENT_COMPLETED back
to CANCELLED. -/
theorem c2_cancel_then_complete_unguarded :
    (cancelOrder c2Db 1).map (fun d => (findOrder d 1).map Order.status) =
      .ok (some OrderStatus.CANCELLED) ∧
    ((cancelOrder c2Db 1).bind (fun d => handleCheckoutCompleted 100 c2Meta d)).map
        (fun x => ((findOrder x.1 1).map Order.status,
                   (findPayment x.1 1).map Payment.status, x.2)) =
      .ok (some OrderStatus.PAYMENT_COMPLETED, some PaymentStatus.SUCCEEDED, true) ∧
    (handleCheckoutExpired c2Meta c2DbPaid).map
        (fun d => ((findOrder d 1).map Order.status,
                   (findPayment d 1).map Payment.status)) =
      .ok (some OrderStatus.CANCELLED, some PaymentStatus.CANCELLED) :=
  ⟨rfl, rfl, rfl⟩

/-- Event whose handler throws internally (its payment row is absent), used by
the C8 theorem. -/
def c8Event : StripeEvent :=
  .checkoutCompleted { sessionId := "cs_9", orderId := some 7, paymentId := some 8 }

/-- Empty store used by the C8 theorem. -/
def c8Db : DB := {}

/-- C8 (code bug).  After a webhook's signature validates, an internal handler
failure is NOT absorbed: `handleWebhook` reports `WEBHOOK_FAILED` and the
route replies 400 without `received: true`, contradicting the claimed
2xx-once-signed contract (only `INVALID_SIGNATURE` was supposed to 4xx). -/
theorem c8_webhook_route_replies_400 :
    webhookRoute true true 0 c8Event c8Db =
      (c8Db, { status := 400, received := false,
               errorMessage := some "Record to update not found" }) ∧
    (handleWebhook true 0 c8Event c8Db).2 =
      .error "WEBHOOK_FAILED" "Record to update not found" ∧
    (handleWebhook false 0 c8Event c8Db).2 =
      .error "INVALID_SIGNATURE" "Invalid webhook signature" :=
  ⟨rfl, rfl, rfl⟩

/-- Buyer used by the C4 scenario, already carrying a processor customer id. -/
def c4User : User :=
  { id := 1, email := "buyer@example.com", stripeCustomerId := some "cus_1" }

/-- Available, active plan used by the C4 scenario. -/
def c4Plan : StoragePlan :=
  { id := 1, providerId := 1, name := "Starter", storageSizeGb := 1,
    durationDays := 180, priceUsdCents := 99,
    status := PlanStatus.AVAILABLE, isActive := true }

/-- Existing order bearing the supplied idempotency key "k1". -/
def c4Order : Order :=
  { id := 1, orderNumber := "ORD-C4", userId := 1, providerId := 1, planId := 1,
    storageSizeGb := 1, durationDays := 180, priceUsdCents := 99,
    status := OrderStatus.PENDING_PAYMENT, idempotencyKey := some "k1" }

/-- Existing payment of the C4 order with no session id recorded. -/
def c4Payment : Payment :=
  { id := 1, orderId := 1, userId := 1, amountCents := 99,
    status := PaymentStatus.PENDING, idempotencyKey := "pk1" }

/-- Checkout environment of the C4 scenario whose session re-fetch throws
(the session is absent at the processor). -/
def c4Env : CheckoutEnv :=
  { retrieveSession := fun s => .error ("No such checkout session: " ++ s),
    createSession := .ok { id := "cs_new", url := some "https://pay.example" },
    newCustomerId := "cus_new", newOrderId := 2, newPaymentId := 2,
    newOrderNumber := "ORD-C4B", genOrderIdemKey := "gk1",
    genPaymentIdemKey := "gk2" }

/-- Store of the C4 scenario: the existing order's payment has no session id. -/
def c4Db : DB :=
  { users := [c4User], plans := [c4Plan], orders := [c4Order],
    payments := [c4Payment] }

/-- Store of the C4 scenario with a recorded session id "cs_1". -/
def c4DbSession : DB :=
  { c4Db with payments := [{ c4Payment with stripeSessionId := some "cs_1" }] }

/-- C4 counterexample: when the hosted session is absent the existing order is
NOT returned.  With no session id recorded the call falls through and dies on
the unique idempotency-key constraint (`CHECKOUT_FAILED`); with a recorded id
whose re-fetch throws it returns `STRIPE_ERROR`.  In both cases the result is
an error, never a success carrying the existing order. -/
theorem c4_counterexample :
    (createCheckoutSession c4Env c4Db 1 1 (some "k1")).2 =
      .error "CHECKOUT_FAILED"
        "Unique constraint failed on the fields: (idempotency_key)" ∧
    (∀ res : CheckoutResult,
      (createCheckoutSession c4Env c4Db 1 1 (some "k1")).2 ≠ .success res) ∧
    (createCheckoutSession c4Env c4DbSession 1 1 (some "k1")).2 =
      .error "STRIPE_ERROR" "No such checkout session: cs_1" ∧
    (∀ res : CheckoutResult,
      (createCheckoutSession c4Env c4DbSession 1 1 (some "k1")).2 ≠ .success res) := by
  refine ⟨rfl, ?_, rfl, ?_⟩
  · intro res hcontr
    exact nomatch hcontr
  · intro res hcontr
    exact nomatch hcontr

/-- C4 amended.  When an idempotencyKey is supplied and an Order already bears
it: if the order's first payment records a session id and the re-fetch
succeeds (an expired session still retrieves), the session is returned
unchanged with the existing order and payment and the store is untouched; if
the re-fetch throws, the call returns `STRIPE_ERROR` with the store untouched;
and if no session id is recorded the call falls through and returns
`CHECKOUT_FAILED` from the unique idempotency-key violation, again creating no
new order and no new payment — the existing order is returned only in the
first case. -/
theorem c4_idempotent_checkout_amended :
    (∀ (env : CheckoutEnv) (db : DB) (uid pid : Nat) (k : String)
        (o : Order) (p : Payment) (sid : String) (s : StripeSession),
      db.orders.find? (fun x => x.idempotencyKey == some k) = some o →
      (db.payments.filter (fun x => x.orderId == o.id)).head? = some p →
      p.stripeSessionId = some sid →
      env.retrieveSession sid = .ok s →
      createCheckoutSession env db uid pid (some k) =
        (db, .success { sessionId := s.id, sessionUrl := s.url.getD "",
                        orderId := o.id, paymentId := p.id })) ∧
    (∀ (env : CheckoutEnv) (db : DB) (uid pid : Nat) (k : String)
        (o : Order) (p : Payment) (sid m : String),
      db.orders.find? (fun x => x.idempotencyKey == some k) = some o →
      (db.payments.filter (fun x => x.orderId == o.id)).head? = some p →
      p.stripeSessionId = some sid →
      env.retrieveSession sid = .error m →
      createCheckoutSession env db uid pid (some k) =
        (db, .error "STRIPE_ERROR" m)) ∧
    (∀ (env : CheckoutEnv) (db : DB) (uid pid : Nat) (k : String)
        (o : Order) (p : Payment) (plan : StoragePlan) (user : User) (c : String),
      db.orders.find? (fun x => x.idempotencyKey == some k) = some o →
      (db.payments.filter (fun x => x.orderId == o.id)).head? = some p →
      p.stripeSessionId = none →
      db.plans.find? (fun x => x.id == pid) = some plan →
      plan.status = PlanStatus.AVAILABLE → plan.isActive = true →
      db.users.find? (fun x => x.id == uid) = some user →
      user.stripeCustomerId = some c →
      createCheckoutSession env db uid pid (some k) =
        (db, .error "CHECKOUT_FAILED"
          "Unique constraint failed on the fields: (idempotency_key)")) := by
  refine ⟨?_, ?_, ?_⟩
  · intro env db uid pid k o p sid s ho hp hsid hret
    simp only [createCheckoutSession, ho, hp, hsid, hret]
  · intro env db uid pid k o p sid m ho hp hsid hret
    simp only [createCheckoutSession, ho, hp, hsid, hret]
  · intro env db uid pid k o p plan user c ho hp hsid hplan hav hact huser hcust
    have hmem : o ∈ db.orders := List.mem_of_find?_eq_some ho
    have hpred : (fun x : Order => x.idempotencyKey == some k) o = true :=
      @List.find?_some Order (fun x => x.idempotencyKey == some k) o db.orders ho
    have hany : db.orders.any (fun x => x.idempotencyKey == some k) = true :=
      List.any_eq_true.mpr ⟨o, hmem, hpred⟩
    simp only [createCheckoutSession, ho, hp, hsid, hplan, huser, hcust]
    rw [if_neg (by simp [hav, hact]), if_pos (by simpa using hany)]

/-- Environment for the happy half of the C4 witness: the re-fetch succeeds. -/
def c4EnvOk : CheckoutEnv :=
  { c4Env with retrieveSession := fun s => .ok { id := s, url := some "https://pay" } }

/-- C4 amended witness: with a recorded session id and a successful re-fetch
the existing session, order and payment come back with the store unchanged;
with no recorded session id the call fails on the idempotency-key constraint. -/
theorem c4_idempotent_checkout_amended_witness :
    createCheckoutSession c4EnvOk c4DbSession 1 1 (some "k1") =
      (c4DbSession, .success { sessionId := "cs_1", sessionUrl := "https://pay",
                               orderId := 1, paymentId := 1 }) ∧
    createCheckoutSession c4Env c4Db 1 1 (some "k1") =
      (c4Db, .error "CHECKOUT_FAILED"
        "Unique constraint failed on the fields: (idempotency_key)") :=
  ⟨c4_idempotent_checkout_amended.1 c4EnvOk c4DbSession 1 1 "k1" c4Order
      { c4Payment with stripeSessionId := some "cs_1" } "cs_1"
      { id := "cs_1", url := some "https://pay" } rfl rfl rfl rfl,
   c4_idempotent_checkout_amended.2.2 c4Env c4Db 1 1 "k1" c4Order c4Payment
      c4Plan c4User "cus_1" rfl rfl rfl rfl rfl rfl rfl rfl⟩

end Agg
